import Mathlib

/-!
Verification of the groundwater-balance engine of the groundwater-dashboard
repository. The pure calculation functions of `pages/2_R_DSS.py` and the
per-year recharge analytics of `pages/1_Data_Analytics.py` are shallowly
embedded over exact rationals (`ℚ` models Python float arithmetic read
ideally); a water-level sample carries its calendar year, month and
depth-to-water value.
-/

namespace GWDash

/-- A dated water-level sample: calendar year, month (1..12) and the
depth-to-water value in metres below ground level. -/
structure Sample where
  year : Int
  month : Nat
  value : ℚ
deriving DecidableEq

/-- `calculate_recharge_wtf` of `2_R_DSS.py`:
`(delta_h * area_ha * specific_yield) * 0.00001`. -/
def calculate_recharge_wtf (delta_h area_ha specific_yield : ℚ) : ℚ :=
  (delta_h * area_ha * specific_yield) * 0.00001

/-- `calculate_recharge_rif` of `2_R_DSS.py`:
`a = 0.08; max(0, (rfif * area_ha * (rainfall_mm - a) / 1000) * 0.00001)`. -/
def calculate_recharge_rif (rainfall_mm area_ha rfif : ℚ) : ℚ :=
  let a : ℚ := 0.08
  max 0 ((rfif * area_ha * (rainfall_mm - a) / 1000) * 0.00001)

/-- `calculate_validated_recharge` of `2_R_DSS.py`: pass `wtf` through when
`rif == 0`; otherwise clamp by the ±20 percent-deviation band. -/
def calculate_validated_recharge (recharge_wtf recharge_rif : ℚ) : ℚ :=
  if recharge_rif = 0 then recharge_wtf
  else
    let pd_value : ℚ := ((recharge_wtf - recharge_rif) / recharge_rif) * 100
    if -20 ≤ pd_value ∧ pd_value ≤ 20 then recharge_wtf
    else if pd_value < -20 then 0.8 * recharge_rif
    else 1.2 * recharge_rif

/-- `calculate_annual_draft` of `2_R_DSS.py`: `(daily_pumping_m3 * 365) / 1e9`. -/
def calculate_annual_draft (daily_pumping_m3 : ℚ) : ℚ :=
  (daily_pumping_m3 * 365) / 1000000000

/-- `calculate_et_draft` of `2_R_DSS.py`: the evaporative term is added when
`latest_water_level_mbgl ≤ 1.0`, the transpiration term when
`latest_water_level_mbgl ≤ 3.5`; the accumulated m³ total is divided by 1e9. -/
def calculate_et_draft (evaporation_mm_day transpiration_mm_day area_ha
    latest_water_level_mbgl : ℚ) : ℚ :=
  let area_m2 : ℚ := area_ha * 10000
  let t1 : ℚ :=
    if latest_water_level_mbgl ≤ 1.0 then (evaporation_mm_day / 1000) * area_m2 * 365 else 0
  let t2 : ℚ :=
    if latest_water_level_mbgl ≤ 3.5 then (transpiration_mm_day / 1000) * area_m2 * 365 else 0
  (t1 + t2) / 1000000000

/-- `calculate_net_groundwater_availability` of `2_R_DSS.py`. -/
def calculate_net_groundwater_availability (annual_recharge_bcm total_draft_bcm : ℚ) : ℚ :=
  annual_recharge_bcm - total_draft_bcm

/-- `calculate_stage_of_extraction` of `2_R_DSS.py`: `200` when the recharge
is `≤ 0`, else `(draft / recharge) * 100`. -/
def calculate_stage_of_extraction (total_draft_bcm annual_recharge_bcm : ℚ) : ℚ :=
  if annual_recharge_bcm ≤ 0 then 200
  else (total_draft_bcm / annual_recharge_bcm) * 100

/-- `get_recommendation` of `2_R_DSS.py`: (message, severity colour, category
label) for a stage-of-extraction percentage. -/
def get_recommendation (stage : ℚ) : String × String × String :=
  if stage ≤ 70 then
    ("SAFE: Groundwater extraction is within sustainable limits.", "green", "Safe")
  else if 70 < stage ∧ stage ≤ 90 then
    ("SEMI-CRITICAL: Caution is advised.", "orange", "Semi-critical")
  else if 90 < stage ∧ stage ≤ 100 then
    ("CRITICAL: High stress on resources.", "red", "Critical")
  else
    ("OVER-EXPLOITED: Extraction exceeds recharge.", "darkred", "Over-Exploited")

/-- The status/colour branch of `render_sustainability_assessment` of
`2_R_DSS.py`, applied to the project-inclusive stage `new_stage`. -/
def sustainability_status (new_stage : ℚ) : String × String :=
  if new_stage < 70 then ("Sustainable", "#32CD32")
  else if 70 ≤ new_stage ∧ new_stage ≤ 90 then ("Semi-critical", "#FFD700")
  else if 90 < new_stage ∧ new_stage ≤ 100 then ("Critical", "#FFA500")
  else ("Non-sustainable", "#FF0000")

/-- Band index of the primary classifier's category label (1..4; 0 for a
string that is not one of its labels). -/
def primary_band (c : String) : Nat :=
  if c = "Safe" then 1
  else if c = "Semi-critical" then 2
  else if c = "Critical" then 3
  else if c = "Over-Exploited" then 4
  else 0

/-- Band index of the project-sustainability status label (1..4; 0 for a
string that is not one of its labels). -/
def project_band (c : String) : Nat :=
  if c = "Sustainable" then 1
  else if c = "Semi-critical" then 2
  else if c = "Critical" then 3
  else if c = "Non-sustainable" then 4
  else 0

/-- The custom forecast of `render_prediction_section` of `2_R_DSS.py`:
when `area > 0 and specific_yield > 0`, project
`latest_level - delta_h_forecast_annual / 12 * duration_months` with
`delta_h_forecast_annual = net_availability * 1e9 / ((area * 10000) * sy)`;
otherwise return `latest_level` unchanged. -/
def forecast_level (latest_level net_availability_bcm area_ha specific_yield
    duration_months : ℚ) : ℚ :=
  if 0 < area_ha ∧ 0 < specific_yield then
    let delta_h_forecast_annual : ℚ :=
      (net_availability_bcm * 1000000000) / ((area_ha * 10000) * specific_yield)
    latest_level - (delta_h_forecast_annual / 12 * duration_months)
  else latest_level

/-- The main 3-month forecast of `2_R_DSS.py`:
`latest_level - (delta_h_forecast_annual / 4)` under the same guard. -/
def forecasted_level_main (latest_level net_availability_bcm area_ha specific_yield : ℚ) : ℚ :=
  if 0 < area_ha ∧ 0 < specific_yield then
    let delta_h_forecast_annual : ℚ :=
      (net_availability_bcm * 1000000000) / ((area_ha * 10000) * specific_yield)
    latest_level - (delta_h_forecast_annual / 4)
  else latest_level

/-- Mean of a list of values, `none` on the empty list — models a pandas
column mean, which is NaN (caught by `pd.isna`) on an empty selection. -/
def meanOpt : List ℚ → Option ℚ
  | [] => none
  | l => some (l.sum / (l.length : ℚ))

/-- Maximum of a list of integers, 0 on the empty list — models
`df['year'].max()`, which is only consulted on a non-empty frame. -/
def listMaxD : List Int → Int
  | [] => 0
  | h :: t => t.foldl max h

/-- `pre_monsoon_level` of `get_monsoon_rise` in `2_R_DSS.py`: mean value of
the samples of month 5 of the last calendar year. -/
def pre_monsoon_level (df : List Sample) : Option ℚ :=
  meanOpt ((df.filter fun s => s.year == listMaxD (df.map Sample.year) && s.month == 5).map
    Sample.value)

/-- `post_monsoon_level` of `get_monsoon_rise` in `2_R_DSS.py`: mean value of
the samples of month 11 of the last calendar year. -/
def post_monsoon_level (df : List Sample) : Option ℚ :=
  meanOpt ((df.filter fun s => s.year == listMaxD (df.map Sample.year) && s.month == 11).map
    Sample.value)

/-- `get_monsoon_rise` of `2_R_DSS.py`: `(0, 0)` for an absent (`None`) or
empty frame; otherwise `(max 0 (pre − post), last value)`, falling back to
`(0, last value)` when either monthly mean is NaN. -/
def get_monsoon_rise : Option (List Sample) → ℚ × ℚ
  | none => (0, 0)
  | some df =>
    if df = [] then (0, 0)
    else
      match pre_monsoon_level df, post_monsoon_level df with
      | some pre, some post => (max 0 (pre - post), (df.map Sample.value).getLastD 0)
      | _, _ => (0, (df.map Sample.value).getLastD 0)

/-- Hydrological-year key of `calculate_annual_recharge` in
`1_Data_Analytics.py`: `year.where(month >= 6, year - 1)`. -/
def hydro_year (s : Sample) : Int :=
  if 6 ≤ s.month then s.year else s.year - 1

/-- The distinct hydrological years of a frame in ascending order — the keys
`df_copy.groupby('hydro_year')` iterates over (pandas sorts group keys). -/
def hydroYears (df : List Sample) : List Int :=
  List.insertionSort (· ≤ ·) (df.map hydro_year).dedup

/-- The group of one hydrological year. -/
def groupOf (df : List Sample) (y : Int) : List Sample :=
  df.filter fun s => hydro_year s == y

/-- `group['value'].min()` (0 on an empty group, which the caller never
consults: groups are non-empty by construction). -/
def valuesMin : List Sample → ℚ
  | [] => 0
  | h :: t => t.foldl (fun a s => min a s.value) h.value

/-- `group['value'].max()` (0 on an empty group). -/
def valuesMax : List Sample → ℚ
  | [] => 0
  | h :: t => t.foldl (fun a s => max a s.value) h.value

/-- `group['value'].mean()`. -/
def valuesMean (g : List Sample) : ℚ :=
  (g.map Sample.value).sum / (g.length : ℚ)

/-- One row of the recharge table of `calculate_annual_recharge`: the
hydrological year (labelled `"{year}-{year+1}"` in the source), the recharge
in metres and the average water level. -/
structure RechargeRow where
  year : Int
  recharge_m : ℚ
  avg_level_m : ℚ
deriving DecidableEq

/-- The body of the `for year, group in df_copy.groupby('hydro_year')` loop of
`calculate_annual_recharge`: skip a group of fewer than 90 samples
(`continue`), compute `peak_level = min`, `lowest_level = max`,
`dh = lowest_level - peak_level`, and append `{year, sy·dh, mean}` only when
`dh > 0`. -/
def recharge_row (df : List Sample) (sy : ℚ) (y : Int) : Option RechargeRow :=
  if (groupOf df y).length < 90 then none
  else if 0 < valuesMax (groupOf df y) - valuesMin (groupOf df y) then
    some ⟨y, sy * (valuesMax (groupOf df y) - valuesMin (groupOf df y)), valuesMean (groupOf df y)⟩
  else none

/-- `calculate_annual_recharge` of `1_Data_Analytics.py`: the rows the grouped
loop emits, in the (ascending) group-key order pandas iterates in. -/
def calculate_annual_recharge (df : List Sample) (sy : ℚ) : List RechargeRow :=
  (hydroYears df).filterMap (recharge_row df sy)

/-- A concrete hydrological year of exactly 90 samples with minimum value 2
and maximum value 5 (months 7..9 of 2020, all in hydrological year 2020). -/
def df90 : List Sample :=
  List.replicate 88 ⟨2020, 7, 3⟩ ++ [⟨2020, 8, 2⟩, ⟨2020, 9, 5⟩]

end GWDash

namespace GWDash

/-- Every row `recharge_row` emits records its group's year, sample count
bound, positive seasonal fluctuation and the exact recharge and mean. -/
lemma recharge_row_eq_some {df : List Sample} {sy : ℚ} {y : Int} {r : RechargeRow}
    (h : recharge_row df sy y = some r) :
    r.year = y ∧ 90 ≤ (groupOf df y).length
    ∧ 0 < valuesMax (groupOf df y) - valuesMin (groupOf df y)
    ∧ r.recharge_m = sy * (valuesMax (groupOf df y) - valuesMin (groupOf df y))
    ∧ r.avg_level_m = valuesMean (groupOf df y) := by
  rw [recharge_row] at h
  by_cases h1 : (groupOf df y).length < 90
  · rw [if_pos h1] at h
    cases h
  · rw [if_neg h1] at h
    by_cases h2 : 0 < valuesMax (groupOf df y) - valuesMin (groupOf df y)
    · rw [if_pos h2] at h
      cases h
      exact ⟨rfl, by omega, h2, rfl, rfl⟩
    · rw [if_neg h2] at h
      cases h

/-- A qualifying group (≥ 90 samples, positive fluctuation) emits exactly its
row. -/
lemma recharge_row_of_qualifying {df : List Sample} {sy : ℚ} {y : Int}
    (hlen : 90 ≤ (groupOf df y).length)
    (hdh : 0 < valuesMax (groupOf df y) - valuesMin (groupOf df y)) :
    recharge_row df sy y =
      some ⟨y, sy * (valuesMax (groupOf df y) - valuesMin (groupOf df y)),
        valuesMean (groupOf df y)⟩ := by
  rw [recharge_row, if_neg (by omega), if_pos hdh]

/-- The iterated group keys are exactly the hydrological years present. -/
lemma mem_hydroYears {df : List Sample} {y : Int} :
    y ∈ hydroYears df ↔ ∃ s ∈ df, hydro_year s = y := by
  rw [hydroYears, (List.perm_insertionSort _ _).mem_iff, List.mem_dedup, List.mem_map]

/-- The iterated group keys are strictly ascending. -/
lemma hydroYears_sorted (df : List Sample) : (hydroYears df).Sorted (· < ·) := by
  have hle : (hydroYears df).Sorted (· ≤ ·) := List.sorted_insertionSort _ _
  have hnd : (hydroYears df).Nodup :=
    ((List.perm_insertionSort _ _).nodup_iff).mpr (List.nodup_dedup _)
  exact hle.lt_of_le hnd

/-- `get_recommendation` on the Safe band. -/
lemma get_recommendation_of_le70 {s : ℚ} (h : s ≤ 70) :
    get_recommendation s =
      ("SAFE: Groundwater extraction is within sustainable limits.", "green", "Safe") := by
  rw [get_recommendation, if_pos h]

/-- `get_recommendation` on the Semi-critical band. -/
lemma get_recommendation_of_70_90 {s : ℚ} (h1 : 70 < s) (h2 : s ≤ 90) :
    get_recommendation s = ("SEMI-CRITICAL: Caution is advised.", "orange", "Semi-critical") := by
  rw [get_recommendation, if_neg (by linarith), if_pos ⟨h1, h2⟩]

/-- `get_recommendation` on the Critical band. -/
lemma get_recommendation_of_90_100 {s : ℚ} (h1 : 90 < s) (h2 : s ≤ 100) :
    get_recommendation s = ("CRITICAL: High stress on resources.", "red", "Critical") := by
  rw [get_recommendation, if_neg (by linarith), if_neg (by rintro ⟨-, h⟩; linarith),
    if_pos ⟨h1, h2⟩]

/-- `get_recommendation` on the Over-Exploited band. -/
lemma get_recommendation_of_gt100 {s : ℚ} (h : 100 < s) :
    get_recommendation s = ("OVER-EXPLOITED: Extraction exceeds recharge.", "darkred",
      "Over-Exploited") := by
  rw [get_recommendation, if_neg (by linarith), if_neg (by rintro ⟨-, h2⟩; linarith),
    if_neg (by rintro ⟨-, h2⟩; linarith)]

/-- `sustainability_status` on the Sustainable band. -/
lemma sustainability_status_of_lt70 {s : ℚ} (h : s < 70) :
    sustainability_status s = ("Sustainable", "#32CD32") := by
  rw [sustainability_status, if_pos h]

/-- `sustainability_status` on its Semi-critical band (70 included). -/
lemma sustainability_status_of_70_90 {s : ℚ} (h1 : 70 ≤ s) (h2 : s ≤ 90) :
    sustainability_status s = ("Semi-critical", "#FFD700") := by
  rw [sustainability_status, if_neg (by linarith), if_pos ⟨h1, h2⟩]

/-- `sustainability_status` on its Critical band. -/
lemma sustainability_status_of_90_100 {s : ℚ} (h1 : 90 < s) (h2 : s ≤ 100) :
    sustainability_status s = ("Critical", "#FFA500") := by
  rw [sustainability_status, if_neg (by linarith), if_neg (by rintro ⟨-, h⟩; linarith),
    if_pos ⟨h1, h2⟩]

/-- `sustainability_status` on its Non-sustainable band. -/
lemma sustainability_status_of_gt100 {s : ℚ} (h : 100 < s) :
    sustainability_status s = ("Non-sustainable", "#FF0000") := by
  rw [sustainability_status, if_neg (by linarith), if_neg (by rintro ⟨-, h2⟩; linarith),
    if_neg (by rintro ⟨-, h2⟩; linarith)]

/-- claim C1: `calculate_validated_recharge(wtf, 0) = wtf`; for `rif ≠ 0`, with
`pd = (wtf − rif)/rif · 100`, the result is `wtf` when `−20 ≤ pd ≤ 20` (both
boundaries accepted), `0.8·rif` when `pd < −20`, `1.2·rif` when `pd > 20`, so
it always lies in `{wtf, 0.8·rif, 1.2·rif}`. -/
theorem validated_recharge_band_rule (wtf rif : ℚ) :
    calculate_validated_recharge wtf 0 = wtf
    ∧ (rif ≠ 0 → -20 ≤ (wtf - rif) / rif * 100 → (wtf - rif) / rif * 100 ≤ 20 →
        calculate_validated_recharge wtf rif = wtf)
    ∧ (rif ≠ 0 → (wtf - rif) / rif * 100 < -20 →
        calculate_validated_recharge wtf rif = 0.8 * rif)
    ∧ (rif ≠ 0 → 20 < (wtf - rif) / rif * 100 →
        calculate_validated_recharge wtf rif = 1.2 * rif)
    ∧ (rif ≠ 0 →
        calculate_validated_recharge wtf rif = wtf
        ∨ calculate_validated_recharge wtf rif = 0.8 * rif
        ∨ calculate_validated_recharge wtf rif = 1.2 * rif) := by
  refine ⟨by simp [calculate_validated_recharge], ?_, ?_, ?_, ?_⟩
  · intro h h1 h2
    simp only [calculate_validated_recharge, if_neg h]
    rw [if_pos ⟨h1, h2⟩]
  · intro h h1
    simp only [calculate_validated_recharge, if_neg h]
    rw [if_neg (by intro hc; linarith [hc.1]), if_pos h1]
  · intro h h1
    simp only [calculate_validated_recharge, if_neg h]
    rw [if_neg (by intro hc; linarith [hc.2]), if_neg (by linarith)]
  · intro h
    simp only [calculate_validated_recharge, if_neg h]
    split
    · exact Or.inl rfl
    · split
      · exact Or.inr (Or.inl rfl)
      · exact Or.inr (Or.inr rfl)

/-- claim C2: `calculate_stage_of_extraction` returns the sentinel `200`
whenever `recharge ≤ 0`, returns `100 · draft / recharge` whenever
`recharge > 0` (so it never divides by zero), and in particular returns `0`
for a zero draft and positive recharge. -/
theorem stage_of_extraction_sentinel (draft recharge : ℚ) :
    (recharge ≤ 0 → calculate_stage_of_extraction draft recharge = 200)
    ∧ (0 < recharge → calculate_stage_of_extraction draft recharge = 100 * draft / recharge)
    ∧ (0 < recharge → calculate_stage_of_extraction 0 recharge = 0) := by
  refine ⟨fun h => by simp [calculate_stage_of_extraction, h], fun h => ?_, fun h => ?_⟩
  · rw [calculate_stage_of_extraction, if_neg (by linarith)]
    ring
  · rw [calculate_stage_of_extraction, if_neg (by linarith)]
    simp

/-- claim C3: `get_recommendation` is a total classifier: its category is
`Safe` exactly on `stage ≤ 70`, `Semi-critical` exactly on `70 < stage ≤ 90`,
`Critical` exactly on `90 < stage ≤ 100` and `Over-Exploited` exactly on
`stage > 100` — four contiguous bands with no gaps and no overlaps — and the
boundary points 70, 90, 100 fall in the lower band. -/
theorem get_recommendation_partition (stage : ℚ) :
    ((get_recommendation stage).2.2 = "Safe" ↔ stage ≤ 70)
    ∧ ((get_recommendation stage).2.2 = "Semi-critical" ↔ 70 < stage ∧ stage ≤ 90)
    ∧ ((get_recommendation stage).2.2 = "Critical" ↔ 90 < stage ∧ stage ≤ 100)
    ∧ ((get_recommendation stage).2.2 = "Over-Exploited" ↔ 100 < stage)
    ∧ (get_recommendation 70).2.2 = "Safe"
    ∧ (get_recommendation 90).2.2 = "Semi-critical"
    ∧ (get_recommendation 100).2.2 = "Critical" := by
  have bnd1 : (get_recommendation 70).2.2 = "Safe" := by
    rw [get_recommendation_of_le70 le_rfl]
  have bnd2 : (get_recommendation 90).2.2 = "Semi-critical" := by
    rw [get_recommendation_of_70_90 (by norm_num) le_rfl]
  have bnd3 : (get_recommendation 100).2.2 = "Critical" := by
    rw [get_recommendation_of_90_100 (by norm_num) le_rfl]
  rcases le_or_lt stage 70 with c | c
  · rw [get_recommendation_of_le70 c]
    exact ⟨⟨fun _ => c, fun _ => rfl⟩,
      ⟨fun h => absurd h (by decide), fun h => by exfalso; linarith [h.1]⟩,
      ⟨fun h => absurd h (by decide), fun h => by exfalso; linarith [h.1]⟩,
      ⟨fun h => absurd h (by decide), fun h => by exfalso; linarith⟩,
      bnd1, bnd2, bnd3⟩
  · rcases le_or_lt stage 90 with c2 | c2
    · rw [get_recommendation_of_70_90 c c2]
      exact ⟨⟨fun h => absurd h (by decide), fun h => by exfalso; linarith⟩,
        ⟨fun _ => ⟨c, c2⟩, fun _ => rfl⟩,
        ⟨fun h => absurd h (by decide), fun h => by exfalso; linarith [h.1]⟩,
        ⟨fun h => absurd h (by decide), fun h => by exfalso; linarith⟩,
        bnd1, bnd2, bnd3⟩
    · rcases le_or_lt stage 100 with c3 | c3
      · rw [get_recommendation_of_90_100 c2 c3]
        exact ⟨⟨fun h => absurd h (by decide), fun h => by exfalso; linarith⟩,
          ⟨fun h => absurd h (by decide), fun h => by exfalso; linarith [h.2]⟩,
          ⟨fun _ => ⟨c2, c3⟩, fun _ => rfl⟩,
          ⟨fun h => absurd h (by decide), fun h => by exfalso; linarith⟩,
          bnd1, bnd2, bnd3⟩
      · rw [get_recommendation_of_gt100 c3]
        exact ⟨⟨fun h => absurd h (by decide), fun h => by exfalso; linarith⟩,
          ⟨fun h => absurd h (by decide), fun h => by exfalso; linarith [h.2]⟩,
          ⟨fun h => absurd h (by decide), fun h => by exfalso; linarith [h.2]⟩,
          ⟨fun _ => c3, fun _ => rfl⟩,
          bnd1, bnd2, bnd3⟩

/-- claim C4: the project-sustainability classifier maps `stage < 70` to
Sustainable, `70 ≤ stage ≤ 90` to Semi-critical, `90 < stage ≤ 100` to
Critical and `stage > 100` to Non-sustainable; at exactly 70 it returns the
Semi-critical band while `get_recommendation` returns Safe, and at every
other stage the two classifiers land in the same band. -/
theorem sustainability_vs_primary (stage : ℚ) :
    ((sustainability_status stage).1 = "Sustainable" ↔ stage < 70)
    ∧ ((sustainability_status stage).1 = "Semi-critical" ↔ 70 ≤ stage ∧ stage ≤ 90)
    ∧ ((sustainability_status stage).1 = "Critical" ↔ 90 < stage ∧ stage ≤ 100)
    ∧ ((sustainability_status stage).1 = "Non-sustainable" ↔ 100 < stage)
    ∧ (sustainability_status 70).1 = "Semi-critical"
    ∧ (get_recommendation 70).2.2 = "Safe"
    ∧ (stage ≠ 70 →
        project_band (sustainability_status stage).1 = primary_band (get_recommendation stage).2.2) := by
  have core : ((sustainability_status stage).1 = "Sustainable" ↔ stage < 70)
      ∧ ((sustainability_status stage).1 = "Semi-critical" ↔ 70 ≤ stage ∧ stage ≤ 90)
      ∧ ((sustainability_status stage).1 = "Critical" ↔ 90 < stage ∧ stage ≤ 100)
      ∧ ((sustainability_status stage).1 = "Non-sustainable" ↔ 100 < stage) := by
    rcases lt_or_le stage 70 with c | c
    · rw [sustainability_status_of_lt70 c]
      exact ⟨⟨fun _ => c, fun _ => rfl⟩,
        ⟨fun h => absurd h (by decide), fun h => by exfalso; linarith [h.1]⟩,
        ⟨fun h => absurd h (by decide), fun h => by exfalso; linarith [h.1]⟩,
        ⟨fun h => absurd h (by decide), fun h => by exfalso; linarith⟩⟩
    · rcases le_or_lt stage 90 with c2 | c2
      · rw [sustainability_status_of_70_90 c c2]
        exact ⟨⟨fun h => absurd h (by decide), fun h => by exfalso; linarith⟩,
          ⟨fun _ => ⟨c, c2⟩, fun _ => rfl⟩,
          ⟨fun h => absurd h (by decide), fun h => by exfalso; linarith [h.1]⟩,
          ⟨fun h => absurd h (by decide), fun h => by exfalso; linarith⟩⟩
      · rcases le_or_lt stage 100 with c3 | c3
        · rw [sustainability_status_of_90_100 c2 c3]
          exact ⟨⟨fun h => absurd h (by decide), fun h => by exfalso; linarith⟩,
            ⟨fun h => absurd h (by decide), fun h => by exfalso; linarith [h.2]⟩,
            ⟨fun _ => ⟨c2, c3⟩, fun _ => rfl⟩,
            ⟨fun h => absurd h (by decide), fun h => by exfalso; linarith⟩⟩
        · rw [sustainability_status_of_gt100 c3]
          exact ⟨⟨fun h => absurd h (by decide), fun h => by exfalso; linarith⟩,
            ⟨fun h => absurd h (by decide), fun h => by exfalso; linarith [h.2]⟩,
            ⟨fun h => absurd h (by decide), fun h => by exfalso; linarith [h.2]⟩,
            ⟨fun _ => c3, fun _ => rfl⟩⟩
  obtain ⟨h1, h2, h3, h4⟩ := core
  refine ⟨h1, h2, h3, h4,
    by rw [sustainability_status_of_70_90 le_rfl (by norm_num)],
    by rw [get_recommendation_of_le70 le_rfl], ?_⟩
  intro hne
  rcases lt_trichotomy stage 70 with c | c | c
  · rw [sustainability_status_of_lt70 c, get_recommendation_of_le70 c.le]
    decide
  · exact absurd c hne
  · rcases le_or_lt stage 90 with c2 | c2
    · rw [sustainability_status_of_70_90 c.le c2, get_recommendation_of_70_90 c c2]
      decide
    · rcases le_or_lt stage 100 with c3 | c3
      · rw [sustainability_status_of_90_100 c2 c3, get_recommendation_of_90_100 c2 c3]
        decide
      · rw [sustainability_status_of_gt100 c3, get_recommendation_of_gt100 c3]
        decide

/-- claim C5: `calculate_et_draft` returns 0 when `latest_level > 3.5`, only
the transpiration term `(transp/1000)·(area·10000)·365/1e9` when
`1.0 < latest_level ≤ 3.5`, and the sum of the evaporative term and the
transpiration term when `latest_level ≤ 1.0` — the two depth gates are
independent, not mutually exclusive. -/
theorem et_draft_depth_gates (evap transp area_ha lvl : ℚ) :
    (3.5 < lvl → calculate_et_draft evap transp area_ha lvl = 0)
    ∧ (1.0 < lvl → lvl ≤ 3.5 →
        calculate_et_draft evap transp area_ha lvl =
          (transp / 1000) * (area_ha * 10000) * 365 / 1000000000)
    ∧ (lvl ≤ 1.0 →
        calculate_et_draft evap transp area_ha lvl =
          ((evap / 1000) * (area_ha * 10000) * 365
            + (transp / 1000) * (area_ha * 10000) * 365) / 1000000000) := by
  refine ⟨fun h => ?_, fun h1 h2 => ?_, fun h => ?_⟩
  · rw [calculate_et_draft]
    rw [if_neg (by norm_num; linarith), if_neg (by linarith)]
    norm_num
  · rw [calculate_et_draft]
    rw [if_neg (by norm_num; linarith), if_pos h2]
    rw [zero_add]
  · rw [calculate_et_draft]
    rw [if_pos h, if_pos (by norm_num; linarith)]

/-- claim C7: with `area_ha > 0` and `specific_yield > 0` the forecast equals
`latest − (na·1e9/(area·10000·sy))·(months/12)`, so positive net availability
strictly lowers the projected depth; with `area_ha ≤ 0` or
`specific_yield ≤ 0` it returns `latest_level` unchanged; and the main
3-month forecast (annual change divided by 4) is this formula at 3 months. -/
theorem forecast_formula (latest na area_ha sy m : ℚ) :
    (0 < area_ha → 0 < sy →
        forecast_level latest na area_ha sy m =
          latest - na * 1000000000 / (area_ha * 10000 * sy) * (m / 12))
    ∧ (area_ha ≤ 0 ∨ sy ≤ 0 → forecast_level latest na area_ha sy m = latest)
    ∧ (0 < area_ha → 0 < sy → 0 < na → 0 < m →
        forecast_level latest na area_ha sy m < latest)
    ∧ forecasted_level_main latest na area_ha sy = forecast_level latest na area_ha sy 3 := by
  refine ⟨fun ha hs => ?_, fun h => ?_, fun ha hs hna hm => ?_, ?_⟩
  · rw [forecast_level, if_pos ⟨ha, hs⟩]
    ring
  · rw [forecast_level, if_neg ?_]
    rintro ⟨h1, h2⟩
    rcases h with h | h <;> linarith
  · rw [forecast_level, if_pos ⟨ha, hs⟩]
    have hd : 0 < na * 1000000000 / (area_ha * 10000 * sy) := by positivity
    have : 0 < na * 1000000000 / (area_ha * 10000 * sy) / 12 * m := by positivity
    have harea : (0:ℚ) < area_ha * 10000 * sy := by positivity
    have : 0 < na * 1000000000 / (area_ha * 10000 * sy) / 12 * m := by positivity
    nlinarith [this]
  · rw [forecasted_level_main, forecast_level]
    by_cases h : 0 < area_ha ∧ 0 < sy
    · rw [if_pos h, if_pos h]
      ring
    · rw [if_neg h, if_neg h]

/-- claim C8: `calculate_recharge_rif` equals
`max(0, rfif·area·(rain − 0.08)/1000)·1e-5` (the 0.08 effective-rainfall
offset is subtracted before scaling), is never negative, and evaluates to
`0.0179988` at rainfall 1200, area 10000, rfif 0.15. -/
theorem recharge_rif_formula (rain area_ha rfif : ℚ) :
    calculate_recharge_rif rain area_ha rfif =
      max 0 (rfif * area_ha * (rain - 0.08) / 1000) * 0.00001
    ∧ 0 ≤ calculate_recharge_rif rain area_ha rfif
    ∧ calculate_recharge_rif 1200 10000 0.15 = 0.0179988 := by
  refine ⟨?_, le_max_left 0 _, by norm_num [calculate_recharge_rif]⟩
  rw [calculate_recharge_rif]
  rw [max_mul_of_nonneg _ _ (by norm_num : (0:ℚ) ≤ 0.00001), zero_mul]

/-- claim C9: `calculate_recharge_wtf` equals `delta_h·area·sy·1e-5`, is
monotonically non-decreasing in each argument over non-negative inputs, and
evaluates to `0.006` at delta_h 0.5, area 10000, sy 0.12. -/
theorem recharge_wtf_monotone (d a s d' a' s' : ℚ) :
    calculate_recharge_wtf d a s = d * a * s * 0.00001
    ∧ (0 ≤ a → 0 ≤ s → d ≤ d' →
        calculate_recharge_wtf d a s ≤ calculate_recharge_wtf d' a s)
    ∧ (0 ≤ d → 0 ≤ s → a ≤ a' →
        calculate_recharge_wtf d a s ≤ calculate_recharge_wtf d a' s)
    ∧ (0 ≤ d → 0 ≤ a → s ≤ s' →
        calculate_recharge_wtf d a s ≤ calculate_recharge_wtf d a s')
    ∧ calculate_recharge_wtf 0.5 10000 0.12 = 0.006 := by
  refine ⟨rfl, fun ha hs hd => ?_, fun hd hs ha => ?_, fun hd ha hs => ?_,
    by norm_num [calculate_recharge_wtf]⟩
  · have key : d * a * s ≤ d' * a * s := by
      nlinarith [mul_nonneg (mul_nonneg (sub_nonneg.mpr hd) ha) hs]
    rw [calculate_recharge_wtf, calculate_recharge_wtf]
    linarith [key]
  · have key : d * a * s ≤ d * a' * s := by
      nlinarith [mul_nonneg (mul_nonneg hd (sub_nonneg.mpr ha)) hs]
    rw [calculate_recharge_wtf, calculate_recharge_wtf]
    linarith [key]
  · have key : d * a * s ≤ d * a * s' := by
      nlinarith [mul_nonneg (mul_nonneg hd ha) (sub_nonneg.mpr hs)]
    rw [calculate_recharge_wtf, calculate_recharge_wtf]
    linarith [key]

set_option maxRecDepth 8000 in
/-- claim C6: `calculate_annual_recharge` groups samples by hydrological year
(month ≥ 6 → calendar year, month < 6 → calendar year − 1) and emits, in
ascending year order, one row per group with at least 90 samples and strictly
positive `dh = max − min`, carrying `recharge_m = sy·dh` and the group's
arithmetic mean; under-90 groups and `dh ≤ 0` groups contribute no row; and a
90-sample year with min 2, max 5 and `sy = 0.05` yields `recharge_m = 0.15`. -/
theorem annual_recharge_characterization (df : List Sample) (sy : ℚ) :
    List.Pairwise (fun r r' : RechargeRow => r.year < r'.year)
      (calculate_annual_recharge df sy)
    ∧ (∀ r ∈ calculate_annual_recharge df sy,
        90 ≤ (groupOf df r.year).length
        ∧ 0 < valuesMax (groupOf df r.year) - valuesMin (groupOf df r.year)
        ∧ r.recharge_m = sy * (valuesMax (groupOf df r.year) - valuesMin (groupOf df r.year))
        ∧ r.avg_level_m = valuesMean (groupOf df r.year))
    ∧ (∀ y : Int, (∃ s ∈ df, hydro_year s = y) →
        90 ≤ (groupOf df y).length →
        0 < valuesMax (groupOf df y) - valuesMin (groupOf df y) →
        (⟨y, sy * (valuesMax (groupOf df y) - valuesMin (groupOf df y)),
          valuesMean (groupOf df y)⟩ : RechargeRow) ∈ calculate_annual_recharge df sy)
    ∧ (∀ y : Int,
        ((groupOf df y).length < 90 ∨ valuesMax (groupOf df y) - valuesMin (groupOf df y) ≤ 0) →
        ∀ r ∈ calculate_annual_recharge df sy, r.year ≠ y)
    ∧ calculate_annual_recharge df90 0.05 =
        [⟨2020, 0.15, valuesMean (groupOf df90 2020)⟩] := by
  have hy : hydroYears df90 = [2020] := by decide
  have hlen : (groupOf df90 2020).length = 90 := by decide
  have hmin : valuesMin (groupOf df90 2020) = 2 := by decide
  have hmax : valuesMax (groupOf df90 2020) = 5 := by decide
  have hdh : 0 < valuesMax (groupOf df90 2020) - valuesMin (groupOf df90 2020) := by
    rw [hmin, hmax]
    norm_num
  have hrow : recharge_row df90 0.05 2020 =
      some ⟨2020, 0.05 * (valuesMax (groupOf df90 2020) - valuesMin (groupOf df90 2020)),
        valuesMean (groupOf df90 2020)⟩ :=
    recharge_row_of_qualifying (le_of_eq hlen.symm) hdh
  have hconc : calculate_annual_recharge df90 0.05 =
      [⟨2020, 0.15, valuesMean (groupOf df90 2020)⟩] := by
    rw [calculate_annual_recharge, hy]
    simp only [List.filterMap_cons, List.filterMap_nil, hrow]
    rw [hmin, hmax]
    simp only [List.cons.injEq, RechargeRow.mk.injEq]
    norm_num
  have sound : ∀ r ∈ calculate_annual_recharge df sy,
      90 ≤ (groupOf df r.year).length
      ∧ 0 < valuesMax (groupOf df r.year) - valuesMin (groupOf df r.year)
      ∧ r.recharge_m = sy * (valuesMax (groupOf df r.year) - valuesMin (groupOf df r.year))
      ∧ r.avg_level_m = valuesMean (groupOf df r.year) := by
    intro r hr
    rw [calculate_annual_recharge, List.mem_filterMap] at hr
    obtain ⟨y, -, heq⟩ := hr
    obtain ⟨hyear, h1, h2, h3, h4⟩ := recharge_row_eq_some heq
    rw [hyear]
    exact ⟨h1, h2, h3, h4⟩
  refine ⟨?_, sound, ?_, ?_, hconc⟩
  · rw [calculate_annual_recharge]
    refine List.pairwise_filterMap.mpr ((hydroYears_sorted df).imp ?_)
    intro a b hab r hr r' hr'
    obtain ⟨hy, -⟩ := recharge_row_eq_some (Option.mem_def.mp hr)
    obtain ⟨hy', -⟩ := recharge_row_eq_some (Option.mem_def.mp hr')
    rw [hy, hy']
    exact hab
  · intro y hy hlen hdh
    rw [calculate_annual_recharge, List.mem_filterMap]
    exact ⟨y, mem_hydroYears.mpr hy, recharge_row_of_qualifying hlen hdh⟩
  · intro y hbad r hr hry
    obtain ⟨h1, h2, -, -⟩ := sound r hr
    rw [hry] at h1 h2
    rcases hbad with hbad | hbad
    · omega
    · linarith

/-- claim C10: `get_monsoon_rise` returns the fabricated pair `(0, 0)` for an
absent (`None`) or empty series — a zero rise and a zero latest level — while
for every non-empty series its second component is the chronologically last
sample's value. -/
theorem monsoon_rise_empty_fallback (l : List Sample) :
    get_monsoon_rise none = (0, 0)
    ∧ get_monsoon_rise (some []) = (0, 0)
    ∧ (l ≠ [] → (get_monsoon_rise (some l)).2 = (l.map Sample.value).getLastD 0) := by
  refine ⟨rfl, rfl, fun h => ?_⟩
  rw [get_monsoon_rise, if_neg h]
  rcases hpre : pre_monsoon_level l with - | pre <;>
    rcases hpost : post_monsoon_level l with - | post <;> rfl

end GWDash
